import Mathlib

/-!
Verification of the notification scheduling / deduplication core of the
gpro-qualy-reminder-bot repository.

The embedding models datetimes as rational numbers of seconds since an
arbitrary epoch; timedelta arithmetic (`.total_seconds() / 3600`) becomes
rational arithmetic.  Python dictionaries that are iterated in insertion
order (the race calendar, the users map, the dedup history) are modelled
as association lists.  Functions that perform network or file I/O take the
I/O result as an explicit parameter (the quali-status API answer) or omit
the persistence call (`save_users_data`), which does not affect the
in-memory state being reasoned about.
-/

namespace GproBot

/-- One race record of `race_calendar` (gpro_calendar.py).  `hoursLeft` is
`none` unless the record is a copy annotated by `get_races_closing_soon`;
`hasWeather` models the presence of the optional `weather` key. -/
structure RaceData where
  qualiClose : ℚ
  track : String
  date : ℚ
  group : String
  hoursLeft : Option ℚ := none
  hasWeather : Bool := false
deriving Repr, DecidableEq

/-- The in-memory `race_calendar` dictionary, keyed by race id. -/
abbrev Calendar := List (Nat × RaceData)

/-- Keys of the `notify_history` dictionary (checker.py): either a global
`(race_id, window)` key or a per-user `(user_id, race_id, label)` key for
custom notifications. -/
inductive HistKey where
  | global (raceId : Nat) (label : String)
  | perUser (userId : Nat) (raceId : Nat) (label : String)
deriving Repr, DecidableEq

/-- The `notify_history` dictionary: key to sent timestamp. -/
abbrev History := List (HistKey × ℚ)

/-- Python `key in notify_history`. -/
def histMem (h : History) (k : HistKey) : Bool :=
  h.any (fun kv => decide (kv.1 = k))

/-- One element of the list returned by the per-tick checkers:
`(type, race_id, race_data, label, history_key)` plus the optional
target user id carried by custom notifications. -/
structure Notification where
  ntype : String
  raceId : Nat
  raceData : RaceData
  label : String
  historyKey : HistKey
  targetUser : Option Nat := none
deriving Repr, DecidableEq

/-! ## gpro_calendar.py -/

/-- `get_races_closing_soon(hours_before)` (gpro_calendar.py lines 347-362):
keep the races whose quali close lies strictly in the future and at most
`hours_before` hours away, annotate a copy of each record with `hours_left`,
and sort ascending by `hours_left` (Python `sorted` is stable, as is
`List.mergeSort`). -/
def get_races_closing_soon (cal : Calendar) (now : ℚ) (hoursBefore : ℚ := 720) :
    Calendar :=
  let upcoming := cal.filterMap (fun rd =>
    let timeToClose := (rd.2.qualiClose - now) / 3600
    if 0 < timeToClose ∧ timeToClose ≤ hoursBefore then
      some (rd.1, { rd.2 with hoursLeft := some timeToClose })
    else none)
  upcoming.mergeSort (fun a b => a.2.hoursLeft.getD 0 ≤ b.2.hoursLeft.getD 0)

/-- State-passing form of `get_races_closing_soon`: the source annotates
`data.copy()`, never the stored record, so the `race_calendar` state is
returned unchanged alongside the result. -/
def get_races_closing_soon_state (cal : Calendar) (now : ℚ)
    (hoursBefore : ℚ := 720) : Calendar × Calendar :=
  (cal, get_races_closing_soon cal now hoursBefore)

/-! ## notifications/checker.py : constants and the per-tick checkers -/

/-- `NOTIFICATION_WINDOWS`: `(hours_before, tolerance_minutes, label)`. -/
def NOTIFICATION_WINDOWS : List (ℚ × ℚ × String) :=
  [(48, 6, "48h"), (24, 6, "24h"), (2, 5, "2h"), (10/60, 2, "10min")]

def CHECK_INTERVAL_NORMAL_SECONDS : ℚ := 300
def CHECK_INTERVAL_FAST_SECONDS : ℚ := 60
def NOTIFICATION_HISTORY_RETENTION_DAYS : ℚ := 30
def API_CHECK_START_HOURS : ℚ := 2
def API_CHECK_END_HOURS : ℚ := 7/2
def API_CHECK_INTERVAL_MINUTES : ℚ := 10
def FALLBACK_TOLERANCE_MINUTES : ℚ := 15
def CUSTOM_NOTIF_TOLERANCE_MIN : ℚ := 5

/-- `_check_quali_closing_notifications(now)` (checker.py lines 49-75). -/
def check_quali_closing_notifications (cal : Calendar) (history : History)
    (now : ℚ) : List Notification :=
  let racesClosing := get_races_closing_soon cal now 48
  racesClosing.flatMap (fun rd =>
    NOTIFICATION_WINDOWS.filterMap (fun w =>
      let timeUntil := (rd.2.qualiClose - now) / 3600
      let targetHours := w.1
      let toleranceHours := w.2.1 / 60
      if |timeUntil - targetHours| ≤ toleranceHours ∧
          histMem history (.global rd.1 w.2.2) = false then
        some ⟨"quali", rd.1, rd.2, w.2.2, .global rd.1 w.2.2, none⟩
      else none))

/-- One slot of a user's `custom_notifications` list. -/
structure CustomNotif where
  enabled : Bool
  hoursBefore : Option ℚ
deriving Repr, DecidableEq

/-- One value of the `users_data` dictionary (notifications/user_data.py).
An outer `none` on `group`, `notifications`, `customNotifications`,
`gproLang` or `uiLang` models the JSON key being absent (pre-migration
records); `completedQuali` is always read through `.get`, so its absent
and null states are not distinguished. -/
structure UserRecord where
  completedQuali : Option Nat
  group : Option (Option String)
  notifications : Option (List (String × Bool))
  customNotifications : Option (List CustomNotif)
  gproLang : Option String
  uiLang : Option String
deriving Repr, DecidableEq

/-- The in-memory `users_data` dictionary. -/
abbrev Users := List (Nat × UserRecord)

/-- `_check_custom_notifications(now)` (checker.py lines 78-115). -/
def check_custom_notifications (cal : Calendar) (users : Users)
    (history : History) (now : ℚ) : List Notification :=
  let racesClosing := get_races_closing_soon cal now 72
  users.flatMap (fun ud =>
    (ud.2.customNotifications.getD []).enum.flatMap (fun sc =>
      if sc.2.enabled = false then []
      else
        match sc.2.hoursBefore with
        | none => []
        | some hoursBefore =>
          racesClosing.filterMap (fun rd =>
            let timeUntil := (rd.2.qualiClose - now) / 3600
            let toleranceHours := CUSTOM_NOTIF_TOLERANCE_MIN / 60
            if |timeUntil - hoursBefore| ≤ toleranceHours ∧
                histMem history
                  (.perUser ud.1 rd.1 ("custom_" ++ toString (sc.1 + 1))) = false then
              some ⟨"custom", rd.1, rd.2, "custom_" ++ toString (sc.1 + 1),
                    .perUser ud.1 rd.1 ("custom_" ++ toString (sc.1 + 1)), some ud.1⟩
            else none)))

/-- One race classified by `_check_quali_open_notifications`: the tuple
`(race_id, race_data, prev_race_id, hours_since_race)` plus the previous
race's record (the source refetches it as `race_calendar[prev_race_id]`,
which is exactly the record the classification looked up). -/
structure EligibleRace where
  raceId : Nat
  raceData : RaceData
  prevRaceId : Nat
  prevRaceData : RaceData
  hoursSinceRace : ℚ
deriving Repr, DecidableEq

/-- The loop body of checker.py lines 132-158 classifying one calendar
entry: `some (true, _)` when the race is in the API polling window,
`some (false, _)` when it has reached fallback time, `none` otherwise. -/
def classify_quali_open (cal : Calendar) (history : History) (now : ℚ)
    (e : Nat × RaceData) : Option (Bool × EligibleRace) :=
  if e.1 = 1 then none
  else if histMem history (.global e.1 "opens_soon") then none
  else
    match cal.lookup (e.1 - 1) with
    | none => none
    | some prevRaceData =>
      let hoursSinceRace := (now - prevRaceData.date) / 3600
      if API_CHECK_START_HOURS ≤ hoursSinceRace ∧
          hoursSinceRace ≤ API_CHECK_END_HOURS then
        some (true, ⟨e.1, e.2, e.1 - 1, prevRaceData, hoursSinceRace⟩)
      else if API_CHECK_END_HOURS < hoursSinceRace ∧
          (hoursSinceRace - API_CHECK_END_HOURS) * 60 ≤ FALLBACK_TOLERANCE_MINUTES then
        some (false, ⟨e.1, e.2, e.1 - 1, prevRaceData, hoursSinceRace⟩)
      else none

/-- `races_in_polling_window` built by the classification loop. -/
def races_in_polling_window (cal : Calendar) (history : History) (now : ℚ) :
    List EligibleRace :=
  cal.filterMap (fun e =>
    (classify_quali_open cal history now e).bind
      (fun p => if p.1 then some p.2 else none))

/-- `races_for_fallback` built by the classification loop. -/
def races_for_fallback (cal : Calendar) (history : History) (now : ℚ) :
    List EligibleRace :=
  cal.filterMap (fun e =>
    (classify_quali_open cal history now e).bind
      (fun p => if p.1 then none else some p.2))

/-- The notifications emitted for one confirmed or fallback race
(checker.py lines 195-208 and 231-244): the `opens_soon` notification,
then the previous race's replay and results notifications unless already
in the history. -/
def open_notifs_for (er : EligibleRace) (history : History) :
    List Notification :=
  [⟨"opens", er.raceId, er.raceData, "opens_soon",
    .global er.raceId "opens_soon", none⟩]
  ++ (if histMem history (.global er.prevRaceId "race_replay") then []
      else [⟨"replay", er.prevRaceId, er.prevRaceData, "race_replay",
             .global er.prevRaceId "race_replay", none⟩])
  ++ (if histMem history (.global er.prevRaceId "race_results") then []
      else [⟨"results", er.prevRaceId, er.prevRaceData, "race_results",
             .global er.prevRaceId "race_results", none⟩])

/-- Result of one evaluation of `_check_quali_open_notifications`. -/
structure OpenCheckResult where
  notifications : List Notification
  apiCalled : Bool
  lastApiCheckTime : Option ℚ
deriving Repr, DecidableEq

/-- `_check_quali_open_notifications(now)` (checker.py lines 118-246).
`apiAnswer` is the mapping `check_quali_status_from_api()` would return if
called (the call is network I/O); it is consulted only when the rate-limit
gate actually performs the call, mirroring `api_result = {}` otherwise.
The weather prefetch in the source is I/O with no effect on the returned
list and is omitted. -/
def check_quali_open_notifications (cal : Calendar) (history : History)
    (lastApiCheckTime : Option ℚ) (now : ℚ) (apiAnswer : List (Nat × Nat)) :
    OpenCheckResult :=
  let pollingRaces := races_in_polling_window cal history now
  let fallbackRaces := races_for_fallback cal history now
  let shouldCheckApi := !pollingRaces.isEmpty
  let apiCalled := shouldCheckApi &&
    (match lastApiCheckTime with
     | none => true
     | some t => decide ((now - t) ≥ API_CHECK_INTERVAL_MINUTES * 60))
  let apiResult := if apiCalled then apiAnswer else []
  let newLast := if apiCalled then some now else lastApiCheckTime
  let pollingNotifs := pollingRaces.flatMap (fun er =>
    if (apiResult.lookup er.raceId).isSome then open_notifs_for er history
    else [])
  let fallbackNotifs := fallbackRaces.flatMap (fun er =>
    open_notifs_for er history)
  ⟨pollingNotifs ++ fallbackNotifs, apiCalled, newLast⟩

/-- The history cleanup step of `check_notifications` (checker.py lines
365-367): keep exactly the entries strictly newer than the 30-day cutoff. -/
def clean_notify_history (history : History) (now : ℚ) : History :=
  let cutoff := now - NOTIFICATION_HISTORY_RETENTION_DAYS * 86400
  history.filter (fun kv => decide (cutoff < kv.2))

/-! ## notifications/user_data.py -/

/-- `get_default_notification_preferences()`. -/
def get_default_notification_preferences : List (String × Bool) :=
  [("48h", true), ("24h", true), ("2h", true), ("10min", true),
   ("opens_soon", true), ("race_replay", true), ("race_live", true),
   ("race_results", true)]

/-- `get_default_custom_notifications()`. -/
def get_default_custom_notifications : List CustomNotif :=
  [⟨false, none⟩, ⟨false, none⟩]

def DEFAULT_USER_LANG : String := "gb"

/-- The record created for a new user by `get_user_status`. -/
def default_user_record : UserRecord :=
  { completedQuali := none
    group := some none
    notifications := some get_default_notification_preferences
    customNotifications := some get_default_custom_notifications
    gproLang := some DEFAULT_USER_LANG
    uiLang := some "en" }

/-- The field-migration block of `get_user_status` (user_data.py lines
113-135): every absent field is filled with its default. -/
def migrate_user_record (u : UserRecord) : UserRecord :=
  { completedQuali := u.completedQuali
    group := some (u.group.getD none)
    notifications := some (u.notifications.getD get_default_notification_preferences)
    customNotifications :=
      some (u.customNotifications.getD get_default_custom_notifications)
    gproLang := some (u.gproLang.getD DEFAULT_USER_LANG)
    uiLang := some (u.uiLang.getD "en") }

/-- Replace the value stored under `userId` (in place, preserving
dictionary order). -/
def updateUser (users : Users) (userId : Nat) (f : UserRecord → UserRecord) :
    Users :=
  users.map (fun kv => if kv.1 = userId then (kv.1, f kv.2) else kv)

/-- `get_user_status(user_id)` (user_data.py lines 93-141): register a new
user with defaults (Python dict insertion appends at the end), or migrate
missing fields of an existing record; returns the updated map and the
record.  The `save_users_data()` persistence calls are file I/O and do not
change the in-memory state. -/
def get_user_status (users : Users) (userId : Nat) : Users × UserRecord :=
  match users.lookup userId with
  | none => (users ++ [(userId, default_user_record)], default_user_record)
  | some u =>
    let u' := migrate_user_record u
    (updateUser users userId (fun _ => u'), u')

/-- `mark_quali_done(user_id, race_id)` (user_data.py lines 247-251). -/
def mark_quali_done (users : Users) (userId raceId : Nat) : Users :=
  let users1 := (get_user_status users userId).1
  updateUser users1 userId (fun u => { u with completedQuali := some raceId })

/-! ## notifications/validation.py -/

def CUSTOM_NOTIF_MIN_HOURS : ℚ := 20 / 60
def CUSTOM_NOTIF_MAX_HOURS : ℚ := 70
def CUSTOM_NOTIF_MAX_SLOTS : Nat := 2

/-- `validate_custom_notification_hours(hours)` (validation.py lines
13-46).  With no i18n context in scope, `get_text` returns the message
key itself, which is how messages are rendered throughout the embedding. -/
def validate_custom_notification_hours (hours : Option ℚ) : Bool × String :=
  match hours with
  | none => (false, "validation-time-empty")
  | some h =>
    if h < CUSTOM_NOTIF_MIN_HOURS then (false, "validation-time-min")
    else if h > CUSTOM_NOTIF_MAX_HOURS then (false, "validation-time-max")
    else (true, "")

/-- The slot value stored by `set_custom_notification`: disabled for a
null offset, enabled otherwise (validation.py lines 183-187). -/
def new_slot_value (hoursBefore : Option ℚ) : CustomNotif :=
  match hoursBefore with
  | none => ⟨false, none⟩
  | some h => ⟨true, some h⟩

/-- `set_custom_notification(user_id, slot, hours_before)` (validation.py
lines 140-194): returns the updated users map together with the
`(success, message)` pair.  The slot bounds are checked before any user
state is touched; the hours validation runs only for a non-null offset. -/
def set_custom_notification (users : Users) (userId : Nat) (slot : Int)
    (hoursBefore : Option ℚ) : Users × Bool × String :=
  if slot < 0 ∨ slot ≥ (CUSTOM_NOTIF_MAX_SLOTS : Int) then
    (users, false, "validation-invalid-slot")
  else
    let hoursCheck : Option String :=
      match hoursBefore with
      | none => none
      | some _ =>
        let v := validate_custom_notification_hours hoursBefore
        if v.1 then none else some v.2
    match hoursCheck with
    | some errorMsg => (users, false, errorMsg)
    | none =>
      let gus := get_user_status users userId
      let userStatus := gus.2
      let customNotifs :=
        userStatus.customNotifications.getD get_default_custom_notifications
      let padded := customNotifs ++
        List.replicate (CUSTOM_NOTIF_MAX_SLOTS - customNotifs.length)
          ⟨false, none⟩
      let newSlot : CustomNotif :=
        match hoursBefore with
        | none => ⟨false, none⟩
        | some h => ⟨true, some h⟩
      let updated := padded.set slot.toNat newSlot
      (updateUser gus.1 userId
        (fun u => { u with customNotifications := some updated }),
       true, "custom-notif-set")

/-! ## notifications/sender.py : send_quali_notification -/

/-- Python `int()` truncation toward zero on a rational. -/
def py_int (q : ℚ) : ℤ :=
  if q < 0 then ⌈q⌉ else ⌊q⌋

/-- The message assembled by `send_quali_notification` (sender.py lines
311-414).  `messageKey` is the i18n key chosen for the body
(`notif-quali-message` vs `notif-quali-message-disabled`),
`titleKey`/`titleTimeArg` the title text, and `buttonCallbacks` the
callback data of the inline keyboard rows.  The timestamps are carried
raw; `strftime` rendering and the `add_flag_to_track` display decoration
are presentation-layer formatting on these same values. -/
structure QualiMessage where
  messageKey : String
  emoji : String
  titleKey : String
  titleTimeArg : Option String
  raceId : Nat
  track : String
  qualiDeadline : ℚ
  raceTime : ℚ
  qualiLink : String
  buttonCallbacks : List String
deriving Repr, DecidableEq

/-- `send_quali_notification(bot, user_id, race_id, race_data,
notification_type)` (sender.py lines 311-414): returns the users map after
`get_user_status` and the message sent, `none` when the automatic
notification is suppressed by the completed-quali skip. -/
def send_quali_notification (users : Users) (userId raceId : Nat)
    (raceData : RaceData) (cal : Calendar) (now : ℚ)
    (notificationType : String := "deadline") : Users × Option QualiMessage :=
  let gus := get_user_status users userId
  let userStatus := gus.2
  if userStatus.completedQuali = some raceId ∧ notificationType ≠ "manual" then
    (gus.1, none)
  else
    let userLang := userStatus.gproLang.getD DEFAULT_USER_LANG
    let qualiLink := "https://gpro.net/" ++ userLang ++ "/Qualify.asp"
    let etp : String × String × Option String :=
      if notificationType = "opens_soon" then
        ("🆕", "notif-quali-opens", none)
      else
        let hoursLeft : ℚ :=
          match raceData.hoursLeft with
          | none => (raceData.qualiClose - now) / 3600
          | some h => h
        if hoursLeft ≥ 24 then
          ("🔔", "notif-quali-closes", some (toString (py_int hoursLeft) ++ "h"))
        else if hoursLeft ≥ 2 then
          ("⏰", "notif-quali-closes", some (toString (py_int hoursLeft) ++ "h"))
        else if hoursLeft ≥ 0.333 then
          ("⚠️", "notif-quali-closes", some "10min")
        else
          ("🚨", "notif-quali-closes",
           some (toString (py_int (hoursLeft * 60)) ++ "min"))
    let isMarkedDone := userStatus.completedQuali = some raceId
    let hasWeather :=
      match cal.lookup raceId with
      | some rd => rd.hasWeather
      | none => false
    if isMarkedDone then
      (gus.1, some
        { messageKey := "notif-quali-message-disabled"
          emoji := etp.1
          titleKey := etp.2.1
          titleTimeArg := etp.2.2
          raceId := raceId
          track := raceData.track
          qualiDeadline := raceData.qualiClose
          raceTime := raceData.date
          qualiLink := qualiLink
          buttonCallbacks := ["reset_" ++ toString raceId] ++
            (if hasWeather then ["weather_" ++ toString raceId] else []) })
    else
      (gus.1, some
        { messageKey := "notif-quali-message"
          emoji := etp.1
          titleKey := etp.2.1
          titleTimeArg := etp.2.2
          raceId := raceId
          track := raceData.track
          qualiDeadline := raceData.qualiClose
          raceTime := raceData.date
          qualiLink := qualiLink
          buttonCallbacks := ["done_" ++ toString raceId] ++
            (if hasWeather then ["weather_" ++ toString raceId] else []) })

/-! ## Helper lemmas -/

theorem histMem_of_mem {history : History} {k : HistKey} {ts : ℚ}
    (hm : (k, ts) ∈ history) : histMem history k = true := by
  simp only [histMem, List.any_eq_true, decide_eq_true_eq]
  exact ⟨(k, ts), hm, rfl⟩

/-- Membership characterization of `get_races_closing_soon`. -/
theorem mem_get_races_closing_soon {cal : Calendar} {now hb : ℚ}
    {rid : Nat} {d' : RaceData} :
    (rid, d') ∈ get_races_closing_soon cal now hb ↔
      ∃ d, (rid, d) ∈ cal ∧ 0 < (d.qualiClose - now) / 3600 ∧
        (d.qualiClose - now) / 3600 ≤ hb ∧
        d' = { d with hoursLeft := some ((d.qualiClose - now) / 3600) } := by
  unfold get_races_closing_soon
  rw [List.mem_mergeSort, List.mem_filterMap]
  constructor
  · rintro ⟨⟨r, d⟩, hmem, heq⟩
    dsimp only at heq
    split at heq
    · rename_i hc
      obtain ⟨rfl, rfl⟩ := Prod.mk.injEq .. ▸ (Option.some.injEq .. ▸ heq :
        (r, { d with hoursLeft := some ((d.qualiClose - now) / 3600) }) = (rid, d'))
      exact ⟨d, hmem, hc.1, hc.2, rfl⟩
    · exact absurd heq (by simp)
  · rintro ⟨d, hmem, h1, h2, rfl⟩
    exact ⟨(rid, d), hmem, by simp [h1, h2]⟩

/-! ## C1 : dedup idempotence of the fixed-offset due check -/

/-- C1: once a `(race_id, label)` pair is recorded in `notify_history`,
re-running `_check_quali_closing_notifications` (at any time, while the
record is retained) never returns a notification for that pair again. -/
theorem quali_closing_dedup_idempotent (cal : Calendar) (history : History)
    (now ts : ℚ) (raceId : Nat) (label : String)
    (hmem : (HistKey.global raceId label, ts) ∈ history) :
    ∀ n ∈ check_quali_closing_notifications cal history now,
      ¬(n.raceId = raceId ∧ n.label = label) := by
  rintro n hn ⟨h1, h2⟩
  unfold check_quali_closing_notifications at hn
  rw [List.mem_flatMap] at hn
  obtain ⟨rd, _, hn⟩ := hn
  rw [List.mem_filterMap] at hn
  obtain ⟨w, _, heq⟩ := hn
  dsimp only at heq
  split at heq
  · rename_i hc
    cases heq
    dsimp only at h1 h2
    rw [h1, h2] at hc
    rw [histMem_of_mem hmem] at hc
    exact absurd hc.2 (by simp)
  · exact absurd heq (by simp)

theorem quali_closing_dedup_idempotent_witness :
    (HistKey.global 1 "48h", (0 : ℚ)) ∈ [(HistKey.global 1 "48h", (0 : ℚ))] ∧
    ∀ n ∈ check_quali_closing_notifications
        [(1, ⟨172800, "T", 178200, "Pro", none, false⟩)]
        [(HistKey.global 1 "48h", 0)] 0,
      ¬(n.raceId = 1 ∧ n.label = "48h") :=
  ⟨List.mem_singleton.mpr rfl,
   quali_closing_dedup_idempotent _ _ _ 0 _ _ (List.mem_singleton.mpr rfl)⟩

/-! ## C2 : the 48h window

The claim says a race whose quali close is `now + 48h + 3min` is due for
the 48h notification.  In the code, `_check_quali_closing_notifications`
first restricts to `get_races_closing_soon(48)`, which requires
`time_to_close <= 48` hours; at `48h + 3min` (48.05 h) the race is
filtered out before the ±6 min window is ever tested, so nothing is
produced.  The effective 48h window is `[48h − 6min, 48h]`. -/

/-- C2 counterexample: a race closing exactly `now + 48h + 3min`
(172980 s), with an empty dedup history, yields an empty due list — in
particular no 48h notification. -/
theorem closing48_plus_3min_counterexample :
    check_quali_closing_notifications
      [(1, ⟨172980, "T", 178380, "Pro", none, false⟩)] [] 0 = [] := by
  norm_num [check_quali_closing_notifications, get_races_closing_soon,
    List.filterMap]

/-- C2 amended: a race at `now + 48h + 3min` is excluded by the 48-hour
pre-filter and produces no notification; a race inside `[48h − 6min, 48h]`
(here `48h − 3min`) produces exactly the 48h notification; a race at
`now + 48h + 10min` produces none. -/
theorem closing48_window_amended (now : ℚ) (rid : Nat) (d1 d2 d3 : RaceData)
    (h1 : d1.qualiClose = now + 172980)
    (h2 : d2.qualiClose = now + 172620)
    (h3 : d3.qualiClose = now + 173400) :
    check_quali_closing_notifications [(rid, d1)] [] now = [] ∧
    (check_quali_closing_notifications [(rid, d2)] [] now).map
      (fun n => (n.raceId, n.label)) = [(rid, "48h")] ∧
    check_quali_closing_notifications [(rid, d3)] [] now = [] := by
  have e1 : now + 172980 - now = (172980 : ℚ) := by ring
  have e2 : now + 172620 - now = (172620 : ℚ) := by ring
  have e3 : now + 173400 - now = (173400 : ℚ) := by ring
  refine ⟨?_, ?_, ?_⟩
  · norm_num [check_quali_closing_notifications, get_races_closing_soon,
      List.filterMap, h1, e1]
  · norm_num [check_quali_closing_notifications, get_races_closing_soon,
      List.filterMap, NOTIFICATION_WINDOWS, histMem, h2, e2, abs_le]
  · norm_num [check_quali_closing_notifications, get_races_closing_soon,
      List.filterMap, h3, e3]

theorem closing48_window_amended_witness :
    check_quali_closing_notifications
        [(7, ⟨172980, "A", 178380, "Pro", none, false⟩)] [] 0 = [] ∧
    (check_quali_closing_notifications
        [(7, ⟨172620, "A", 178020, "Pro", none, false⟩)] [] 0).map
      (fun n => (n.raceId, n.label)) = [(7, "48h")] ∧
    check_quali_closing_notifications
        [(7, ⟨173400, "A", 178800, "Pro", none, false⟩)] [] 0 = [] :=
  closing48_window_amended 0 7 _ _ _ (by norm_num) (by norm_num) (by norm_num)

/-! ## C8 : history cleanup

The per-tick cleanup (checker.py line 367) filters purely on the entry's
timestamp; it never consults the calendar, so an entry for a race that is
no longer in `race_calendar` survives as long as it is younger than the
retention period. -/

/-- C8 counterexample: with the calendar holding only race 1, a fresh
history entry for race 99 survives the cleanup although race 99 is not in
the calendar. -/
theorem cleanup_keeps_noncalendar_entry :
    clean_notify_history [(HistKey.global 99 "48h", 0)] 0 =
      [(HistKey.global 99 "48h", 0)] ∧
    ([(1, (⟨172800, "T", 178200, "Pro", none, false⟩ : RaceData))] :
      Calendar).lookup 99 = none := by
  refine ⟨?_, rfl⟩
  norm_num [clean_notify_history, NOTIFICATION_HISTORY_RETENTION_DAYS,
    List.filter]

/-- C8 amended: after the per-tick cleanup, the dedup history contains no
entry older than the 30-day retention period; entries whose event is no
longer in the calendar are not removed by the cleanup and persist until
they age out. -/
theorem cleanup_retention_amended (history : History) (now : ℚ) :
    ∀ k ts, (k, ts) ∈ clean_notify_history history now →
      now - ts < NOTIFICATION_HISTORY_RETENTION_DAYS * 86400 := by
  intro k ts hm
  unfold clean_notify_history at hm
  rw [List.mem_filter] at hm
  have h := of_decide_eq_true hm.2
  simp only [NOTIFICATION_HISTORY_RETENTION_DAYS] at h ⊢
  linarith

theorem cleanup_retention_amended_witness :
    (5 : ℚ) - 5 < NOTIFICATION_HISTORY_RETENTION_DAYS * 86400 :=
  cleanup_retention_amended [(HistKey.global 1 "48h", 5)] 5
    (HistKey.global 1 "48h") 5
    (by norm_num [clean_notify_history, List.mem_filter,
      NOTIFICATION_HISTORY_RETENTION_DAYS])

/-! ## C9 : correctness of get_races_closing_soon -/

/-- C9: `get_races_closing_soon(hours)` returns exactly the races whose
quali close is strictly in the future and at most `hours` hours away, each
annotated with the computed `hours_left`, sorted ascending by time to
deadline; past or exactly-now deadlines are never returned. -/
theorem closing_soon_correct (cal : Calendar) (now hoursBefore : ℚ) :
    (∀ rid d', (rid, d') ∈ get_races_closing_soon cal now hoursBefore →
      ∃ d, (rid, d) ∈ cal ∧ now < d.qualiClose ∧
        (d.qualiClose - now) / 3600 ≤ hoursBefore ∧
        d' = { d with hoursLeft := some ((d.qualiClose - now) / 3600) }) ∧
    (∀ rid d, (rid, d) ∈ cal → now < d.qualiClose →
      (d.qualiClose - now) / 3600 ≤ hoursBefore →
      (rid, { d with hoursLeft := some ((d.qualiClose - now) / 3600) }) ∈
        get_races_closing_soon cal now hoursBefore) ∧
    List.Pairwise (fun a b => a.2.hoursLeft.getD 0 ≤ b.2.hoursLeft.getD 0)
      (get_races_closing_soon cal now hoursBefore) := by
  have hpos : ∀ q : ℚ, 0 < (q - now) / 3600 ↔ now < q := by
    intro q
    rw [lt_div_iff₀ (by norm_num : (0:ℚ) < 3600)]
    constructor <;> intro h <;> linarith
  refine ⟨?_, ?_, ?_⟩
  · intro rid d' hm
    obtain ⟨d, hmem, h1, h2, h3⟩ := mem_get_races_closing_soon.mp hm
    exact ⟨d, hmem, (hpos d.qualiClose).mp h1, h2, h3⟩
  · intro rid d hmem h1 h2
    exact mem_get_races_closing_soon.mpr
      ⟨d, hmem, (hpos d.qualiClose).mpr h1, h2, rfl⟩
  · unfold get_races_closing_soon
    have hp := @List.sorted_mergeSort (Nat × RaceData)
      (fun a b => decide (a.2.hoursLeft.getD 0 ≤ b.2.hoursLeft.getD 0))
      (fun a b c hab hbc => by
        rw [decide_eq_true_eq] at *
        exact le_trans hab hbc)
      (fun a b => by
        rw [Bool.or_eq_true, decide_eq_true_eq, decide_eq_true_eq]
        exact le_total _ _)
      (cal.filterMap (fun rd =>
        let timeToClose := (rd.2.qualiClose - now) / 3600
        if 0 < timeToClose ∧ timeToClose ≤ hoursBefore then
          some (rd.1, { rd.2 with hoursLeft := some timeToClose })
        else none))
    exact hp.imp (fun h => of_decide_eq_true h)

theorem closing_soon_correct_witness :
    (1, ({ qualiClose := 3600, track := "T", date := 9000, group := "Pro",
           hoursLeft := some ((3600 - 0) / 3600), hasWeather := false } :
          RaceData)) ∈
      get_races_closing_soon [(1, ⟨3600, "T", 9000, "Pro", none, false⟩)]
        0 24 :=
  (closing_soon_correct [(1, ⟨3600, "T", 9000, "Pro", none, false⟩)] 0 24).2.1
    1 ⟨3600, "T", 9000, "Pro", none, false⟩ (List.mem_singleton.mpr rfl)
    (by norm_num) (by norm_num)

/-! ## C3 : per-user custom trigger isolation -/

/-- C3: two distinct users with enabled custom offsets of 1h and 3h against
the same race: at the 1h mark only user `a`'s notification is due; after
`a`'s dedup entry `(a, race, custom_1)` is recorded, user `b`'s
notification is still due at `b`'s own 3h mark; and `a`'s own check at the
1h mark is no longer due, so each user's notification is emitted exactly
once, at that user's own offset. -/
theorem custom_notification_isolation
    (a b rid : Nat) (d : RaceData) (uA uB : UserRecord) (nowA nowB ts : ℚ)
    (hab : a ≠ b)
    (hcA : uA.customNotifications = some [⟨true, some 1⟩])
    (hcB : uB.customNotifications = some [⟨true, some 3⟩])
    (hA : d.qualiClose = nowA + 3600)
    (hB : d.qualiClose = nowB + 10800) :
    ((check_custom_notifications [(rid, d)] [(a, uA), (b, uB)] [] nowA).map
        (fun n => (n.targetUser, n.raceId, n.label)) =
      [(some a, rid, "custom_1")]) ∧
    ((check_custom_notifications [(rid, d)] [(a, uA), (b, uB)]
        [(HistKey.perUser a rid "custom_1", ts)] nowB).map
        (fun n => (n.targetUser, n.raceId, n.label)) =
      [(some b, rid, "custom_1")]) ∧
    (check_custom_notifications [(rid, d)] [(a, uA), (b, uB)]
        [(HistKey.perUser a rid "custom_1", ts)] nowA = []) := by
  have eA : nowA + 3600 - nowA = (3600 : ℚ) := by ring
  have eB : nowB + 10800 - nowB = (10800 : ℚ) := by ring
  have ht : ("custom_" ++ toString (0 + 1)) = "custom_1" := rfl
  refine ⟨?_, ?_, ?_⟩
  · norm_num [check_custom_notifications, get_races_closing_soon,
      List.filterMap, List.enum, List.enumFrom, histMem, hcA, hcB, hA, eA,
      abs_le, ht, CUSTOM_NOTIF_TOLERANCE_MIN]
  · norm_num [check_custom_notifications, get_races_closing_soon,
      List.filterMap, List.enum, List.enumFrom, histMem, hcA, hcB, hB, eB,
      abs_le, ht, CUSTOM_NOTIF_TOLERANCE_MIN, HistKey.perUser.injEq, hab]
  · norm_num [check_custom_notifications, get_races_closing_soon,
      List.filterMap, List.enum, List.enumFrom, histMem, hcA, hcB, hA, eA,
      abs_le, ht, CUSTOM_NOTIF_TOLERANCE_MIN, HistKey.perUser.injEq, hab]

theorem custom_notification_isolation_witness :
    ((check_custom_notifications [(1, ⟨3600, "T", 9000, "Pro", none, false⟩)]
        [(10, ⟨none, some none, some [], some [⟨true, some 1⟩], some "gb",
               some "en"⟩),
         (20, ⟨none, some none, some [], some [⟨true, some 3⟩], some "gb",
               some "en"⟩)] [] 0).map
        (fun n => (n.targetUser, n.raceId, n.label)) =
      [(some 10, 1, "custom_1")]) ∧
    ((check_custom_notifications [(1, ⟨3600, "T", 9000, "Pro", none, false⟩)]
        [(10, ⟨none, some none, some [], some [⟨true, some 1⟩], some "gb",
               some "en"⟩),
         (20, ⟨none, some none, some [], some [⟨true, some 3⟩], some "gb",
               some "en"⟩)]
        [(HistKey.perUser 10 1 "custom_1", 0)] (-7200)).map
        (fun n => (n.targetUser, n.raceId, n.label)) =
      [(some 20, 1, "custom_1")]) ∧
    (check_custom_notifications [(1, ⟨3600, "T", 9000, "Pro", none, false⟩)]
        [(10, ⟨none, some none, some [], some [⟨true, some 1⟩], some "gb",
               some "en"⟩),
         (20, ⟨none, some none, some [], some [⟨true, some 3⟩], some "gb",
               some "en"⟩)]
        [(HistKey.perUser 10 1 "custom_1", 0)] 0 = []) :=
  custom_notification_isolation 10 20 1 ⟨3600, "T", 9000, "Pro", none, false⟩
    _ _ 0 (-7200) 0 (by decide) rfl rfl (by norm_num) (by norm_num)

/-! ## C4 / C5 : quali-open fallback and API rate limiting -/

theorem classify_fallback {cal : Calendar} {history : History} {now : ℚ}
    {rid : Nat} {rdata prevData : RaceData}
    (hr : rid ≠ 1)
    (hmem : histMem history (.global rid "opens_soon") = false)
    (hlook : cal.lookup (rid - 1) = some prevData)
    (h35 : API_CHECK_END_HOURS < (now - prevData.date) / 3600)
    (htol : ((now - prevData.date) / 3600 - API_CHECK_END_HOURS) * 60 ≤
      FALLBACK_TOLERANCE_MINUTES) :
    classify_quali_open cal history now (rid, rdata) =
      some (false, ⟨rid, rdata, rid - 1, prevData,
        (now - prevData.date) / 3600⟩) := by
  unfold classify_quali_open
  dsimp only
  rw [if_neg hr, if_neg (by simp [hmem]), hlook]
  dsimp only
  rw [if_neg (fun hc => absurd hc.2 (not_le.mpr h35)), if_pos ⟨h35, htol⟩]

theorem classify_some {cal : Calendar} {history : History} {now : ℚ}
    {e : Nat × RaceData} {p : Bool × EligibleRace}
    (h : classify_quali_open cal history now e = some p) :
    p.2.raceId = e.1 ∧ p.2.prevRaceId = e.1 - 1 ∧
      histMem history (.global e.1 "opens_soon") = false := by
  unfold classify_quali_open at h
  by_cases h1 : e.1 = 1
  · rw [if_pos h1] at h
    exact absurd h (by simp)
  rw [if_neg h1] at h
  by_cases h2 : histMem history (.global e.1 "opens_soon") = true
  · rw [if_pos h2] at h
    exact absurd h (by simp)
  rw [if_neg h2] at h
  have h2' : histMem history (.global e.1 "opens_soon") = false := by
    simpa using h2
  rcases hl : cal.lookup (e.1 - 1) with _ | prev <;> rw [hl] at h
  · exact absurd h (by simp)
  dsimp only at h
  split at h
  · cases h
    exact ⟨rfl, rfl, h2'⟩
  · split at h
    · cases h
      exact ⟨rfl, rfl, h2'⟩
    · exact absurd h (by simp)

theorem open_notifs_for_key {er : EligibleRace} {history : History}
    {n : Notification} (hn : n ∈ open_notifs_for er history) :
    n.historyKey = .global er.raceId "opens_soon" ∨
    n.historyKey = .global er.prevRaceId "race_replay" ∨
    n.historyKey = .global er.prevRaceId "race_results" := by
  simp only [open_notifs_for, List.mem_append, List.mem_singleton] at hn
  rcases hn with (h | h) | h
  · left; rw [h]
  · right; left
    rcases Decidable.em
        (histMem history (.global er.prevRaceId "race_replay") = true) with
      hc | hc
    · rw [if_pos hc] at h
      exact absurd h (List.not_mem_nil n)
    · rw [if_neg hc] at h
      rw [List.mem_singleton.mp h]
  · right; right
    rcases Decidable.em
        (histMem history (.global er.prevRaceId "race_results") = true) with
      hc | hc
    · rw [if_pos hc] at h
      exact absurd h (List.not_mem_nil n)
    · rw [if_neg hc] at h
      rw [List.mem_singleton.mp h]

theorem classify_of_polling_mem {cal : Calendar} {history : History}
    {now : ℚ} {er : EligibleRace}
    (her : er ∈ races_in_polling_window cal history now) :
    ∃ e ∈ cal, classify_quali_open cal history now e = some (true, er) := by
  unfold races_in_polling_window at her
  rw [List.mem_filterMap] at her
  obtain ⟨e, he, hsome⟩ := her
  refine ⟨e, he, ?_⟩
  rcases hx : classify_quali_open cal history now e with _ | ⟨b, er'⟩ <;>
    rw [hx] at hsome
  · exact absurd hsome (by simp)
  · cases b
    · exact absurd hsome (by simp)
    · have her' : er' = er := by simpa using hsome
      rw [her']

theorem classify_of_fallback_mem {cal : Calendar} {history : History}
    {now : ℚ} {er : EligibleRace}
    (her : er ∈ races_for_fallback cal history now) :
    ∃ e ∈ cal, classify_quali_open cal history now e = some (false, er) := by
  unfold races_for_fallback at her
  rw [List.mem_filterMap] at her
  obtain ⟨e, he, hsome⟩ := her
  refine ⟨e, he, ?_⟩
  rcases hx : classify_quali_open cal history now e with _ | ⟨b, er'⟩ <;>
    rw [hx] at hsome
  · exact absurd hsome (by simp)
  · cases b
    · have her' : er' = er := by simpa using hsome
      rw [her']
    · exact absurd hsome (by simp)

theorem no_opens_key {er : EligibleRace} {history : History}
    {n : Notification} {rid : Nat}
    (hmem : histMem history (.global rid "opens_soon") = true)
    (hkf : histMem history (.global er.raceId "opens_soon") = false)
    (hopen : n ∈ open_notifs_for er history)
    (hkey : n.historyKey = .global rid "opens_soon") : False := by
  rcases open_notifs_for_key hopen with hk | hk | hk
  · rw [hkey] at hk
    simp only [HistKey.global.injEq] at hk
    rw [← hk.1] at hkf
    rw [hkf] at hmem
    exact absurd hmem (by simp)
  · rw [hkey] at hk
    simp only [HistKey.global.injEq] at hk
    exact absurd hk.2 (by simp)
  · rw [hkey] at hk
    simp only [HistKey.global.injEq] at hk
    exact absurd hk.2 (by simp)

/-- C4: fallback confirmation.  For a race other than the first with no
`(race_id, opens_soon)` dedup record, if the time since the previous
race's start exceeds the 3.5-hour polling bound by at most the 15-minute
fallback tolerance, the evaluation emits the quali-open notification for
that race whatever the prober answered; and once the dedup record exists,
no `(race_id, opens_soon)` notification is emitted again. -/
theorem quali_open_fallback_fires (cal : Calendar) (history : History)
    (last : Option ℚ) (now : ℚ) (api : List (Nat × Nat)) (rid : Nat)
    (rdata prevData : RaceData) :
    ((rid, rdata) ∈ cal → rid ≠ 1 →
      cal.lookup (rid - 1) = some prevData →
      API_CHECK_END_HOURS < (now - prevData.date) / 3600 →
      ((now - prevData.date) / 3600 - API_CHECK_END_HOURS) * 60 ≤
        FALLBACK_TOLERANCE_MINUTES →
      histMem history (.global rid "opens_soon") = false →
      ∃ n ∈ (check_quali_open_notifications cal history last now
          api).notifications,
        n.ntype = "opens" ∧ n.raceId = rid ∧
        n.historyKey = .global rid "opens_soon") ∧
    (histMem history (.global rid "opens_soon") = true →
      ∀ n ∈ (check_quali_open_notifications cal history last now
          api).notifications,
        n.historyKey ≠ .global rid "opens_soon") := by
  constructor
  · intro hmemcal hr hlook h35 htol hmem
    refine ⟨⟨"opens", rid, rdata, "opens_soon",
      .global rid "opens_soon", none⟩, ?_, rfl, rfl, rfl⟩
    unfold check_quali_open_notifications
    dsimp only
    rw [List.mem_append]
    right
    rw [List.mem_flatMap]
    refine ⟨⟨rid, rdata, rid - 1, prevData, (now - prevData.date) / 3600⟩,
      ?_, by simp [open_notifs_for]⟩
    unfold races_for_fallback
    rw [List.mem_filterMap]
    exact ⟨(rid, rdata), hmemcal,
      by rw [classify_fallback hr hmem hlook h35 htol]; rfl⟩
  · intro hmem n hn hkey
    unfold check_quali_open_notifications at hn
    dsimp only at hn
    rw [List.mem_append] at hn
    rcases hn with hn | hn
    · rw [List.mem_flatMap] at hn
      obtain ⟨er, her, hn⟩ := hn
      obtain ⟨e, _, hcl⟩ := classify_of_polling_mem her
      obtain ⟨h1, -, h3⟩ := classify_some hcl
      dsimp only at h1 h3
      rw [← h1] at h3
      split at hn <;> split at hn <;>
        first
          | exact no_opens_key hmem h3 hn hkey
          | exact absurd hn (List.not_mem_nil n)
    · rw [List.mem_flatMap] at hn
      obtain ⟨er, her, hn⟩ := hn
      obtain ⟨e, _, hcl⟩ := classify_of_fallback_mem her
      obtain ⟨h1, -, h3⟩ := classify_some hcl
      dsimp only at h1 h3
      rw [← h1] at h3
      exact no_opens_key hmem h3 hn hkey

theorem quali_open_fallback_fires_witness :
    ∃ n ∈ (check_quali_open_notifications
        [(1, ⟨900000, "P", 0, "Pro", none, false⟩),
         (2, ⟨999999, "T", 99999, "Pro", none, false⟩)]
        [] none 12960 []).notifications,
      n.ntype = "opens" ∧ n.raceId = 2 ∧
      n.historyKey = .global 2 "opens_soon" :=
  (quali_open_fallback_fires
      [(1, ⟨900000, "P", 0, "Pro", none, false⟩),
       (2, ⟨999999, "T", 99999, "Pro", none, false⟩)]
      [] none 12960 [] 2 ⟨999999, "T", 99999, "Pro", none, false⟩
      ⟨900000, "P", 0, "Pro", none, false⟩).1
    (by simp) (by decide) rfl
    (by norm_num [API_CHECK_END_HOURS])
    (by norm_num [API_CHECK_END_HOURS, FALLBACK_TOLERANCE_MINUTES])
    rfl

/-- C5: the upstream status probe is rate limited — whenever the
evaluation actually performs the API call, either no previous call was
recorded or at least 10 minutes have elapsed since the recorded last call
time, for every calendar (however many races sit in the polling window). -/
theorem api_rate_limited (cal : Calendar) (history : History)
    (last : Option ℚ) (now : ℚ) (api : List (Nat × Nat)) :
    (check_quali_open_notifications cal history last now api).apiCalled =
      true →
    last = none ∨
      ∃ t, last = some t ∧ API_CHECK_INTERVAL_MINUTES * 60 ≤ now - t := by
  unfold check_quali_open_notifications
  dsimp only
  intro h
  rw [Bool.and_eq_true] at h
  rcases last with _ | t
  · exact Or.inl rfl
  · refine Or.inr ⟨t, rfl, ?_⟩
    exact of_decide_eq_true h.2

theorem api_rate_limited_witness :
    (none : Option ℚ) = none ∨
      ∃ t, (none : Option ℚ) = some t ∧
        API_CHECK_INTERVAL_MINUTES * 60 ≤ 9000 - t :=
  api_rate_limited
    [(1, ⟨900000, "P", 0, "Pro", none, false⟩),
     (2, ⟨999999, "T", 99999, "Pro", none, false⟩)]
    [] none 9000 []
    (by norm_num [check_quali_open_notifications, races_in_polling_window,
      races_for_fallback, classify_quali_open, histMem, List.filterMap,
      List.lookup, API_CHECK_START_HOURS, API_CHECK_END_HOURS])

/-! ## Lookup lemmas for the users map -/

theorem lookup_cons_self (k : Nat) (v : UserRecord) (t : Users) :
    List.lookup k ((k, v) :: t) = some v := by
  simp [List.lookup]

theorem lookup_cons_ne {k k' : Nat} (v : UserRecord) (t : Users)
    (h : k ≠ k') :
    List.lookup k ((k', v) :: t) = List.lookup k t := by
  have hb : (k == k') = false := beq_eq_false_iff_ne.mpr h
  simp [List.lookup, hb]

theorem updateUser_cons (k : Nat) (v : UserRecord) (t : Users) (uid : Nat)
    (f : UserRecord → UserRecord) :
    updateUser ((k, v) :: t) uid f =
      (if k = uid then (k, f v) else (k, v)) :: updateUser t uid f := rfl

theorem lookup_updateUser_self (users : Users) (uid : Nat)
    (f : UserRecord → UserRecord) :
    (updateUser users uid f).lookup uid = (users.lookup uid).map f := by
  induction users with
  | nil => rfl
  | cons kv t ih =>
    obtain ⟨k, v⟩ := kv
    rw [updateUser_cons]
    by_cases h : k = uid
    · subst h
      rw [if_pos rfl, lookup_cons_self, lookup_cons_self]
      rfl
    · rw [if_neg h, lookup_cons_ne _ _ (Ne.symm h),
        lookup_cons_ne _ _ (Ne.symm h), ih]

theorem lookup_updateUser_ne (users : Users) (uid k : Nat)
    (f : UserRecord → UserRecord) (h : k ≠ uid) :
    (updateUser users uid f).lookup k = users.lookup k := by
  induction users with
  | nil => rfl
  | cons kv t ih =>
    obtain ⟨k', v⟩ := kv
    rw [updateUser_cons]
    by_cases h' : k' = uid
    · subst h'
      rw [if_pos rfl, lookup_cons_ne _ _ h, lookup_cons_ne _ _ h, ih]
    · rw [if_neg h']
      by_cases hk : k = k'
      · subst hk
        rw [lookup_cons_self, lookup_cons_self]
      · rw [lookup_cons_ne _ _ hk, lookup_cons_ne _ _ hk, ih]

theorem lookup_append_of_none {l1 : Users} {a : Nat}
    (h : l1.lookup a = none) (l2 : Users) :
    (l1 ++ l2).lookup a = l2.lookup a := by
  induction l1 with
  | nil => rfl
  | cons kv t ih =>
    obtain ⟨k, v⟩ := kv
    rw [List.cons_append]
    by_cases hk : a = k
    · subst hk
      rw [lookup_cons_self] at h
      exact absurd h (by simp)
    · rw [lookup_cons_ne _ _ hk] at h
      rw [lookup_cons_ne _ _ hk]
      exact ih h

theorem get_user_status_fst_lookup (users : Users) (uid : Nat) :
    ((get_user_status users uid).1).lookup uid =
      some ((get_user_status users uid).2) := by
  unfold get_user_status
  rcases hl : users.lookup uid with _ | u
  · dsimp only
    rw [lookup_append_of_none hl]
    simp [List.lookup]
  · dsimp only
    rw [lookup_updateUser_self, hl]
    rfl

theorem get_user_status_snd_of_lookup {users : Users} {uid : Nat}
    {u : UserRecord} (h : users.lookup uid = some u) :
    (get_user_status users uid).2 = migrate_user_record u := by
  unfold get_user_status
  rw [h]

theorem mark_quali_done_lookup (users : Users) (uid rid : Nat) :
    (mark_quali_done users uid rid).lookup uid =
      some { (get_user_status users uid).2 with completedQuali := some rid } := by
  unfold mark_quali_done
  dsimp only
  rw [lookup_updateUser_self, get_user_status_fst_lookup]
  rfl

/-! ## C6 : skip-on-done vs on-demand "already handled" -/

/-- C6: `mark_quali_done(user, race_id)` sets the user's completed marker
to that race; any users state in which that marker equals the race id
makes every automatic (non-"manual") `send_quali_notification` for that
`(user, race)` return without a message, while a "manual" request still
produces a message — the distinct already-handled variant
(`notif-quali-message-disabled`). -/
theorem skip_on_done (users usersLater : Users) (uid rid : Nat)
    (rdata : RaceData) (cal : Calendar) (now : ℚ) (ntype : String) :
    (∃ u', (mark_quali_done users uid rid).lookup uid = some u' ∧
      u'.completedQuali = some rid) ∧
    (∀ u₂, usersLater.lookup uid = some u₂ → u₂.completedQuali = some rid →
      ntype ≠ "manual" →
      (send_quali_notification usersLater uid rid rdata cal now ntype).2 =
        none) ∧
    (∀ u₂, usersLater.lookup uid = some u₂ → u₂.completedQuali = some rid →
      ∃ m, (send_quali_notification usersLater uid rid rdata cal now
          "manual").2 = some m ∧
        m.messageKey = "notif-quali-message-disabled") := by
  refine ⟨⟨_, mark_quali_done_lookup users uid rid, rfl⟩, ?_, ?_⟩
  · intro u₂ hl hc hm
    have hcond : (get_user_status usersLater uid).2.completedQuali =
        some rid := by
      rw [get_user_status_snd_of_lookup hl]
      simpa [migrate_user_record] using hc
    unfold send_quali_notification
    dsimp only
    rw [if_pos ⟨hcond, hm⟩]
  · intro u₂ hl hc
    have hcond : (get_user_status usersLater uid).2.completedQuali =
        some rid := by
      rw [get_user_status_snd_of_lookup hl]
      simpa [migrate_user_record] using hc
    unfold send_quali_notification
    dsimp only
    rw [if_neg (fun hx => hx.2 rfl), if_pos hcond]
    exact ⟨_, rfl, rfl⟩

theorem skip_on_done_witness :
    ((send_quali_notification (mark_quali_done [] 5 2) 5 2
        ⟨3600, "T", 9000, "Pro", none, false⟩ [] 0 "48h").2 = none) ∧
    ∃ m, (send_quali_notification (mark_quali_done [] 5 2) 5 2
        ⟨3600, "T", 9000, "Pro", none, false⟩ [] 0 "manual").2 = some m ∧
      m.messageKey = "notif-quali-message-disabled" :=
  ⟨(skip_on_done [] (mark_quali_done [] 5 2) 5 2
      ⟨3600, "T", 9000, "Pro", none, false⟩ [] 0 "48h").2.1
      _ rfl rfl (by decide),
   (skip_on_done [] (mark_quali_done [] 5 2) 5 2
      ⟨3600, "T", 9000, "Pro", none, false⟩ [] 0 "48h").2.2
      _ rfl rfl⟩

/-! ## C7 : validation of set_custom_notification -/

/-- C7: an out-of-range slot index, or a non-null offset outside
`[CUSTOM_NOTIF_MIN_HOURS, CUSTOM_NOTIF_MAX_HOURS]` (20 minutes to 70
hours), makes `set_custom_notification` return `false` with a descriptive
message and leave the stored users state completely unchanged; in-range
inputs return success. -/
theorem set_custom_validation (users : Users) (uid : Nat) (slot : Int)
    (hoursBefore : Option ℚ) :
    ((slot < 0 ∨ (CUSTOM_NOTIF_MAX_SLOTS : Int) ≤ slot) →
      set_custom_notification users uid slot hoursBefore =
        (users, false, "validation-invalid-slot")) ∧
    (∀ h : ℚ, hoursBefore = some h →
      (h < CUSTOM_NOTIF_MIN_HOURS ∨ CUSTOM_NOTIF_MAX_HOURS < h) →
      (set_custom_notification users uid slot hoursBefore).1 = users ∧
      (set_custom_notification users uid slot hoursBefore).2.1 = false ∧
      ((set_custom_notification users uid slot hoursBefore).2.2 =
          "validation-invalid-slot" ∨
       (set_custom_notification users uid slot hoursBefore).2.2 =
          "validation-time-min" ∨
       (set_custom_notification users uid slot hoursBefore).2.2 =
          "validation-time-max")) ∧
    (0 ≤ slot → slot < (CUSTOM_NOTIF_MAX_SLOTS : Int) →
      (hoursBefore = none ∨ ∃ h, hoursBefore = some h ∧
        CUSTOM_NOTIF_MIN_HOURS ≤ h ∧ h ≤ CUSTOM_NOTIF_MAX_HOURS) →
      (set_custom_notification users uid slot hoursBefore).2.1 = true) := by
  refine ⟨?_, ?_, ?_⟩
  · intro hs
    unfold set_custom_notification
    rw [if_pos hs]
  · intro h hh hout
    by_cases hs : slot < 0 ∨ slot ≥ (CUSTOM_NOTIF_MAX_SLOTS : Int)
    · unfold set_custom_notification
      rw [if_pos hs]
      exact ⟨rfl, rfl, Or.inl rfl⟩
    · subst hh
      rcases hout with hlt | hgt
      · refine ⟨?_, ?_, Or.inr (Or.inl ?_)⟩ <;>
          simp [set_custom_notification, validate_custom_notification_hours,
            hs, hlt]
      · have hnlt : ¬(h < CUSTOM_NOTIF_MIN_HOURS) := by
          rw [not_lt]
          calc CUSTOM_NOTIF_MIN_HOURS ≤ CUSTOM_NOTIF_MAX_HOURS := by
                norm_num [CUSTOM_NOTIF_MIN_HOURS, CUSTOM_NOTIF_MAX_HOURS]
            _ ≤ h := hgt.le
        refine ⟨?_, ?_, Or.inr (Or.inr ?_)⟩ <;>
          simp [set_custom_notification, validate_custom_notification_hours,
            hs, hnlt, hgt]
  · intro h0 h2 hval
    have hs : ¬(slot < 0 ∨ slot ≥ (CUSTOM_NOTIF_MAX_SLOTS : Int)) := by
      rintro (hx | hx)
      · exact absurd h0 (not_le.mpr hx)
      · exact absurd h2 (not_lt.mpr hx)
    rcases hval with rfl | ⟨h, rfl, hmin, hmax⟩
    · simp [set_custom_notification, hs]
    · have hnlt : ¬(h < CUSTOM_NOTIF_MIN_HOURS) := not_lt.mpr hmin
      have hngt : ¬(h > CUSTOM_NOTIF_MAX_HOURS) := not_lt.mpr hmax
      simp [set_custom_notification, validate_custom_notification_hours,
        hs, hnlt, hngt]

theorem set_custom_validation_witness :
    (set_custom_notification [] 1 5 none =
      ([], false, "validation-invalid-slot")) ∧
    ((set_custom_notification [] 1 0 (some 100)).1 = [] ∧
     (set_custom_notification [] 1 0 (some 100)).2.1 = false ∧
     ((set_custom_notification [] 1 0 (some 100)).2.2 =
        "validation-invalid-slot" ∨
      (set_custom_notification [] 1 0 (some 100)).2.2 =
        "validation-time-min" ∨
      (set_custom_notification [] 1 0 (some 100)).2.2 =
        "validation-time-max")) ∧
    (set_custom_notification [] 1 0 (some 1)).2.1 = true :=
  ⟨(set_custom_validation [] 1 5 none).1 (Or.inr (by norm_num
      [CUSTOM_NOTIF_MAX_SLOTS])),
   (set_custom_validation [] 1 0 (some 100)).2.1 100 rfl (Or.inr (by
      norm_num [CUSTOM_NOTIF_MAX_HOURS])),
   (set_custom_validation [] 1 0 (some 1)).2.2 (by norm_num)
     (by norm_num [CUSTOM_NOTIF_MAX_SLOTS])
     (Or.inr ⟨1, rfl, by norm_num [CUSTOM_NOTIF_MIN_HOURS],
       by norm_num [CUSTOM_NOTIF_MAX_HOURS]⟩)⟩

/-! ## C10 : frame property of a successful set_custom_notification -/

theorem set_custom_success_eq (users : Users) (uid : Nat) (slot : Int)
    (hoursBefore : Option ℚ) (u : UserRecord) (cn : List CustomNotif)
    (hl : users.lookup uid = some u)
    (hmig : migrate_user_record u = u)
    (hcn : u.customNotifications = some cn)
    (hlen : cn.length = CUSTOM_NOTIF_MAX_SLOTS)
    (hs : ¬(slot < 0 ∨ slot ≥ (CUSTOM_NOTIF_MAX_SLOTS : Int)))
    (hok : hoursBefore = none ∨
      (validate_custom_notification_hours hoursBefore).1 = true) :
    set_custom_notification users uid slot hoursBefore =
      (updateUser (updateUser users uid (fun _ => u)) uid
        (fun u' => { u' with customNotifications := some (cn.set slot.toNat
          (new_slot_value hoursBefore)) }),
       true, "custom-notif-set") := by
  have hg1 : (get_user_status users uid).1 =
      updateUser users uid (fun _ => u) := by
    unfold get_user_status
    rw [hl]
    dsimp only
    rw [hmig]
  have hg2 : (get_user_status users uid).2 = u := by
    unfold get_user_status
    rw [hl]
    dsimp only
    rw [hmig]
  rcases hoursBefore with _ | h
  · unfold set_custom_notification
    rw [if_neg hs]
    dsimp only
    rw [hg1, hg2, hcn]
    simp [hlen, new_slot_value]
  · rcases hok with hok | hok
    · exact absurd hok (by simp)
    · unfold set_custom_notification
      rw [if_neg hs]
      dsimp only
      rw [if_pos hok]
      dsimp only
      rw [hg1, hg2, hcn]
      simp [hlen, new_slot_value]

/-- C10: a successful `set_custom_notification` changes only the targeted
slot of the target user's `custom_notifications` list — all other fields
of that user's record, the other slot, and every other user's record are
unchanged — and `get_races_closing_soon` leaves the stored calendar
untouched (it annotates copies only). -/
theorem set_custom_frame (users : Users) (uid : Nat) (slot : Int)
    (hoursBefore : Option ℚ) (u : UserRecord) (cn : List CustomNotif)
    (cal : Calendar) (now hb : ℚ)
    (hl : users.lookup uid = some u)
    (hmig : migrate_user_record u = u)
    (hcn : u.customNotifications = some cn)
    (hlen : cn.length = CUSTOM_NOTIF_MAX_SLOTS)
    (h0 : 0 ≤ slot) (h2 : slot < (CUSTOM_NOTIF_MAX_SLOTS : Int))
    (hval : hoursBefore = none ∨ ∃ h, hoursBefore = some h ∧
      CUSTOM_NOTIF_MIN_HOURS ≤ h ∧ h ≤ CUSTOM_NOTIF_MAX_HOURS) :
    (set_custom_notification users uid slot hoursBefore).2.1 = true ∧
    (∀ k, k ≠ uid →
      (set_custom_notification users uid slot hoursBefore).1.lookup k =
        users.lookup k) ∧
    (∃ cn',
      (set_custom_notification users uid slot hoursBefore).1.lookup uid =
        some { u with customNotifications := some cn' } ∧
      cn'.length = CUSTOM_NOTIF_MAX_SLOTS ∧
      ∀ j, j ≠ slot.toNat → cn'[j]? = cn[j]?) ∧
    (get_races_closing_soon_state cal now hb).1 = cal := by
  have hs : ¬(slot < 0 ∨ slot ≥ (CUSTOM_NOTIF_MAX_SLOTS : Int)) := by
    rintro (hx | hx)
    · exact absurd h0 (not_le.mpr hx)
    · exact absurd h2 (not_lt.mpr hx)
  have hok : hoursBefore = none ∨
      (validate_custom_notification_hours hoursBefore).1 = true := by
    rcases hval with rfl | ⟨h, rfl, hmin, hmax⟩
    · exact Or.inl rfl
    · refine Or.inr ?_
      simp only [validate_custom_notification_hours]
      rw [if_neg (not_lt.mpr hmin), if_neg (not_lt.mpr hmax)]
  have hres := set_custom_success_eq users uid slot hoursBefore u cn
    hl hmig hcn hlen hs hok
  refine ⟨by rw [hres], ?_, ?_, rfl⟩
  · intro k hk
    rw [hres]
    dsimp only
    rw [lookup_updateUser_ne _ _ _ _ hk, lookup_updateUser_ne _ _ _ _ hk]
  · refine ⟨cn.set slot.toNat (new_slot_value hoursBefore), ?_, ?_, ?_⟩
    · rw [hres]
      dsimp only
      rw [lookup_updateUser_self, lookup_updateUser_self, hl]
      rfl
    · rw [List.length_set, hlen]
    · intro j hj
      exact List.getElem?_set_ne (Ne.symm hj)

theorem set_custom_frame_witness :
    (set_custom_notification
        [(3, ⟨some 9, some (some "E"), some [("48h", false)],
              some [⟨false, none⟩, ⟨true, some 5⟩], some "de", some "ru"⟩)]
        3 0 (some 1)).2.1 = true ∧
    (∀ k, k ≠ 3 →
      (set_custom_notification
        [(3, ⟨some 9, some (some "E"), some [("48h", false)],
              some [⟨false, none⟩, ⟨true, some 5⟩], some "de", some "ru"⟩)]
        3 0 (some 1)).1.lookup k =
      ([(3, (⟨some 9, some (some "E"), some [("48h", false)],
              some [⟨false, none⟩, ⟨true, some 5⟩], some "de", some "ru"⟩ :
              UserRecord))] : Users).lookup k) ∧
    (∃ cn',
      (set_custom_notification
        [(3, ⟨some 9, some (some "E"), some [("48h", false)],
              some [⟨false, none⟩, ⟨true, some 5⟩], some "de", some "ru"⟩)]
        3 0 (some 1)).1.lookup 3 =
        some { (⟨some 9, some (some "E"), some [("48h", false)],
                some [⟨false, none⟩, ⟨true, some 5⟩], some "de", some "ru"⟩ :
                UserRecord) with
          customNotifications := some cn' } ∧
      cn'.length = CUSTOM_NOTIF_MAX_SLOTS ∧
      ∀ j, j ≠ (0 : Int).toNat →
        cn'[j]? = [(⟨false, none⟩ : CustomNotif), ⟨true, some 5⟩][j]?) ∧
    (get_races_closing_soon_state
      [(1, ⟨3600, "T", 9000, "Pro", none, false⟩)] 0 48).1 =
      [(1, ⟨3600, "T", 9000, "Pro", none, false⟩)] :=
  set_custom_frame _ 3 0 (some 1) _ _ _ 0 48 rfl rfl rfl rfl
    (by norm_num) (by norm_num [CUSTOM_NOTIF_MAX_SLOTS])
    (Or.inr ⟨1, rfl, by norm_num [CUSTOM_NOTIF_MIN_HOURS],
      by norm_num [CUSTOM_NOTIF_MAX_HOURS]⟩)

end GproBot
